import Mathlib

/-!
Shallow embedding of the credential & session lifecycle manager implemented
in `src/backend-rust/src/main.rs` (gRPC auth service).  The five operations
(`sign_up`, `login`, `forgot_password`, `reset_password`, `validate_token`)
are translated as pure functions over explicit store state.  Helper modules
of the repository that are not present under `src/` (the token codec
`utils/jwt`, the password module `utils/password`, the repositories
`repositories/user` and `repositories/session`, and the settings in
`config`) are modelled from the spec, as marked on each definition.
Machine integers: Rust `usize` arithmetic is modelled on `Nat` with explicit
wrap at `2^64`, and the `as i64` reinterpreting cast on `Int`.
-/

deriving instance DecidableEq for Except

namespace AuthCore

/-- The error enum of `error.rs` (absent from src); the variants are exactly
those applied in `main.rs`: `ValidationError`, `DbError`, `Unauthorized`,
`BadRequest`, `JwtError`, `RedisError`, `Internal`. -/
inductive AppError where
  | ValidationError (msg : String)
  | DbError (msg : String)
  | Unauthorized (msg : String)
  | BadRequest (msg : String)
  | JwtError (msg : String)
  | RedisError (msg : String)
  | Internal (msg : String)
deriving DecidableEq, Repr

/-- The user record of the User Store (spec section 3): id, unique email,
password hash, names, active flag.  Ids are opaque; modelled as `Nat`.
The password hash is modelled structurally (salt plus digest body), see
`hash_password`. -/
structure HashString where
  salt : Nat
  body : String
deriving DecidableEq, Repr

structure User where
  id : Nat
  email : String
  password_hash : HashString
  first_name : String
  last_name : String
  is_active : Bool
deriving DecidableEq, Repr

/-- Modelled from the spec: `utils/password` is absent from src.  Spec 4.1:
`hash(plaintext) -> hash_string` embeds a fresh random salt (passed here as
an explicit argument), so two hashes of the same plaintext differ. -/
def hash_password (salt : Nat) (plaintext : String) : HashString :=
  { salt := salt, body := plaintext }

/-- Modelled from the spec: `utils/password` is absent from src.  Spec 4.1:
`verify(hash_string, plaintext) -> bool`, true exactly when the plaintext
matches the one hashed, for any salt. -/
def verify_password (stored : HashString) (plaintext : String) : Bool :=
  stored.body == plaintext

/-- Modelled from the spec: `config.rs` is absent from src.  The settings
carry the signing secret and the two configured token lifetimes in
seconds (spec 4.2: access short TTL, refresh long TTL). -/
structure Settings where
  jwt_secret : String
  access_token_ttl_secs : Nat
  refresh_token_ttl_secs : Nat
deriving DecidableEq, Repr

/-- Modelled from the spec: `utils/jwt` is absent from src.  A signed token
carries subject, issued-at and expiry under a symmetric secret (spec 4.2);
the secret field models the signature (a verifier holding the same secret
accepts it). -/
structure Token where
  secret : String
  sub : Nat
  iat : Nat
  exp : Nat
deriving DecidableEq, Repr

/-- The claim set returned by token verification (spec 4.2 / glossary). -/
structure Claims where
  sub : Nat
  iat : Nat
  exp : Nat
deriving DecidableEq, Repr

/-- Modelled from the spec: `utils/jwt` is absent from src.  Spec 4.2:
`issue(subject_id, time_to_live) -> (token_string, expiry_timestamp)`;
the second component is the absolute expiry timestamp `now + ttl`
(line 135 of main.rs subtracts `now` from it to recover the remaining
lifetime, so it is an absolute timestamp, not a duration). -/
def issueToken (secret : String) (subject now ttl : Nat) : Token × Nat :=
  ({ secret := secret, sub := subject, iat := now, exp := now + ttl }, now + ttl)

/-- `TokenManager::generate_access_token` (utils/jwt, modelled from the
spec): issue with the configured access-token TTL. -/
def generate_access_token (s : Settings) (now uid : Nat) : Token × Nat :=
  issueToken s.jwt_secret uid now s.access_token_ttl_secs

/-- `TokenManager::generate_refresh_token` (utils/jwt, modelled from the
spec): issue with the configured refresh-token TTL. -/
def generate_refresh_token (s : Settings) (now uid : Nat) : Token × Nat :=
  issueToken s.jwt_secret uid now s.refresh_token_ttl_secs

/-- Modelled from the spec: `utils/jwt` is absent from src.  Spec 4.2:
`verify(token_string) -> claims | fails`, with distinct failures for
signature mismatch and elapsed expiry. -/
def verifyToken (secret : String) (now : Nat) (t : Token) : Except String Claims :=
  if t.secret ≠ secret then Except.error "signature mismatch"
  else if t.exp ≤ now then Except.error "token expired"
  else Except.ok { sub := t.sub, iat := t.iat, exp := t.exp }

/-- Session Store keys (spec 4.3): `refresh:<user_id>` and `reset:<token>`.
`repositories/session` is absent from src; the key shapes are the spec's. -/
inductive SessKey where
  | refresh (userId : Nat)
  | reset (token : String)
deriving DecidableEq, Repr

/-- Session Store values: a refresh-token entry stores the token, a
reset-token entry stores the user id (spec 4.3). -/
inductive SessVal where
  | tok (t : Token)
  | uid (u : Nat)
deriving DecidableEq, Repr

/-- The Session Store state: entries key, value, ttl-in-seconds.  The ttl
is an `Int` because `Duration::seconds` takes an `i64`.  A `put` prepends
and `get` takes the first match, modelling overwrite semantics. -/
def SessionStore := List (SessKey × SessVal × Int)
deriving DecidableEq, Repr

/-- Modelled from the spec: Session Store `put(key, value, ttl)` (spec 4.3). -/
def sessionPut (sess : SessionStore) (k : SessKey) (v : SessVal) (ttl : Int) :
    SessionStore :=
  (k, v, ttl) :: sess

/-- Modelled from the spec: Session Store `get(key) -> value | absent`
(spec 4.3); absent or expired keys read as `none`, never as an error. -/
def sessionGet (sess : SessionStore) (k : SessKey) : Option SessVal :=
  (List.find? (fun e => decide (e.1 = k)) sess).map (fun e => e.2.1)

/-- `SessionRepository::store_refresh_token` (repositories/session, modelled
from the spec): key `refresh:<user_id>`, value the refresh token. -/
def store_refresh_token (sess : SessionStore) (uid : Nat) (t : Token) (ttl : Int) :
    SessionStore :=
  sessionPut sess (SessKey.refresh uid) (SessVal.tok t) ttl

/-- `SessionRepository::store_reset_token` (repositories/session, modelled
from the spec): key `reset:<token>`, value the user id. -/
def store_reset_token (sess : SessionStore) (token : String) (uid : Nat) (ttl : Int) :
    SessionStore :=
  sessionPut sess (SessKey.reset token) (SessVal.uid uid) ttl

/-- `SessionRepository::get_user_id_from_reset_token` (repositories/session,
modelled from the spec): read `reset:<token>`, absent maps to `none`. -/
def get_user_id_from_reset_token (sess : SessionStore) (token : String) : Option Nat :=
  match sessionGet sess (SessKey.reset token) with
  | some (SessVal.uid u) => some u
  | _ => none

/-- The User Store state (repositories/user is absent from src; contract
from spec section 6). -/
def UserStore := List User
deriving DecidableEq, Repr

/-- `UserRepository::find_by_email` (modelled from the spec):
`find_by_email(email) -> User | absent`. -/
def find_by_email (users : UserStore) (email : String) : Option User :=
  List.find? (fun u => decide (u.email = email)) users

/-- `UserRepository::find_by_id` (modelled from the spec):
`find_by_id(id) -> User | absent`. -/
def find_by_id (users : UserStore) (uid : Nat) : Option User :=
  List.find? (fun u => decide (u.id = uid)) users

/-- `UserRepository::update_password` (modelled from the spec):
`update_password(id, new_hash) -> ok`, overwriting the stored hash. -/
def update_password (users : UserStore) (uid : Nat) (newHash : HashString) :
    UserStore :=
  users.map (fun u => if u.id = uid then { u with password_hash := newHash } else u)

/-- Rust `usize` subtraction `a - b` as it behaves on underflow in release
builds: two's-complement wrap at `2^64` (in debug builds it panics).  For
`a, b < 2^64` this is the wrapping difference. -/
def usizeSub (a b : Nat) : Nat :=
  (a + 2 ^ 64 - b % 2 ^ 64) % 2 ^ 64

/-- Rust `as i64` cast of a `usize` value `n < 2^64`: reinterpret the bits,
so values at or above `2^63` become negative. -/
def usizeToI64 (n : Nat) : Int :=
  if n < 2 ^ 63 then (n : Int) else (n : Int) - 2 ^ 64

/-- The public user projection built in every response of `main.rs`
(id serialised with `to_string`, email, first and last name; never the
password hash). -/
structure UserProj where
  id : String
  email : String
  first_name : String
  last_name : String
deriving DecidableEq, Repr

def userProjection (u : User) : UserProj :=
  { id := toString u.id, email := u.email,
    first_name := u.first_name, last_name := u.last_name }

structure LoginRequestDto where
  email : String
  password : String
deriving DecidableEq, Repr

structure LoginResponse where
  access_token : Token
  refresh_token : Token
  expires_in : Int
  user : Option UserProj
deriving DecidableEq, Repr

structure ForgotPasswordResponse where
  success : Bool
  message : String
deriving DecidableEq, Repr

structure ResetPasswordResponse where
  success : Bool
  message : String
deriving DecidableEq, Repr

structure ValidateTokenResponse where
  valid : Bool
  user : Option UserProj
  message : String
deriving DecidableEq, Repr

/-- `login` of main.rs lines 90-164, translated step by step.  External
effects become explicit arguments: `now` is `Utc::now().timestamp()`
(non-negative wall clock, cast to usize at line 135), and
`lastLoginResult` is the outcome of the `update_last_login` database call
(the code applies `.map_err(AppError::DbError)?` to it at lines 140-143).
The result pairs the gRPC outcome with the Session Store as left by the
call (the refresh-token write at lines 131-138 precedes the last-login
update). -/
def login (s : Settings) (users : UserStore) (sess : SessionStore)
    (dto : LoginRequestDto) (now : Nat)
    (lastLoginResult : Except String Unit) :
    Except AppError LoginResponse × SessionStore :=
  match find_by_email users dto.email with
  | none => (Except.error (AppError.Unauthorized "Invalid credentials"), sess)
  | some user =>
    if !verify_password user.password_hash dto.password then
      (Except.error (AppError.Unauthorized "Invalid credentials"), sess)
    else
      let at_ := generate_access_token s now user.id
      let rt := generate_refresh_token s now user.id
      let ttl := usizeToI64 (usizeSub rt.2 now)
      let sess2 := store_refresh_token sess user.id rt.1 ttl
      match lastLoginResult with
      | Except.error e => (Except.error (AppError.DbError e), sess2)
      | Except.ok _ =>
        (Except.ok
          { access_token := at_.1, refresh_token := rt.1,
            expires_in := usizeToI64 at_.2,
            user := some (userProjection user) }, sess2)

/-- The RFC 4122 version-4 UUID produced by `Uuid::new_v4()` at line 185 of
main.rs: a 128-bit value in which the 4 version bits are fixed to `4` and
the top 2 variant bits to `10`, leaving 122 bits drawn from the random
input `r` (only `r % 2^122` is consumed). -/
def uuidV4ofRandom (r : Nat) : Nat :=
  let r2 := r % 2 ^ 122
  let lo := r2 % 2 ^ 62
  let hi := r2 / 2 ^ 62
  hi * 2 ^ 68 + 4 * 2 ^ 64 + 2 * 2 ^ 62 + lo

/-- The set of values `Uuid::new_v4()` can take. -/
def resetTokenSpace : Finset Nat :=
  (Finset.range (2 ^ 122)).image uuidV4ofRandom

/-- `forgot_password` of main.rs lines 166-210: look up by email; if found,
generate a fresh v4 UUID reset token (randomness passed as `rand`), store
`reset:<token> -> user_id` with a 30-minute TTL; in both cases answer the
same success response.  Returns the outcome with the resulting Session
Store. -/
def forgot_password (users : UserStore) (sess : SessionStore)
    (email : String) (rand : Nat) :
    Except AppError ForgotPasswordResponse × SessionStore :=
  let reply : ForgotPasswordResponse :=
    { success := true,
      message := "If an account with that email exists, a password reset link has been sent." }
  match find_by_email users email with
  | some user =>
    let reset_token := toString (uuidV4ofRandom rand)
    (Except.ok reply, store_reset_token sess reset_token user.id (30 * 60))
  | none => (Except.ok reply, sess)

/-- `reset_password` of main.rs lines 212-253: read the reset token from
the Session Store; absent fails `BadRequest`; otherwise hash the new
password (fresh salt passed as `salt`) and overwrite the mapped user's
hash, with no prior User Store lookup.  Returns the outcome with the
resulting User Store. -/
def reset_password (users : UserStore) (sess : SessionStore)
    (token newPassword : String) (salt : Nat) :
    Except AppError ResetPasswordResponse × UserStore :=
  match get_user_id_from_reset_token sess token with
  | none =>
    (Except.error (AppError.BadRequest "Invalid or expired reset token."), users)
  | some uid =>
    let hashed := hash_password salt newPassword
    (Except.ok { success := true, message := "Password reset successfully" },
     update_password users uid hashed)

/-- `validate_token` of main.rs lines 255-307: verify the token (failures
map to `JwtError`), look up the subject; return `valid = true` with the
projection only for a found, active user, otherwise `Unauthorized`. -/
def validate_token (s : Settings) (users : UserStore) (now : Nat) (t : Token) :
    Except AppError ValidateTokenResponse :=
  match verifyToken s.jwt_secret now t with
  | Except.error e => Except.error (AppError.JwtError e)
  | Except.ok claims =>
    match find_by_id users claims.sub with
    | some u =>
      if u.is_active then
        Except.ok { valid := true, user := some (userProjection u),
                    message := "Token is valid" }
      else
        Except.error (AppError.Unauthorized "User not active or not found")
    | none => Except.error (AppError.Unauthorized "User not active or not found")

/-! Concrete fixtures used by witnesses and counterexamples. -/

def exSettings : Settings :=
  { jwt_secret := "secret", access_token_ttl_secs := 900,
    refresh_token_ttl_secs := 3600 }

def alice : User :=
  { id := 1, email := "a@b", password_hash := { salt := 7, body := "pw" },
    first_name := "A", last_name := "L", is_active := true }

def bob : User :=
  { id := 2, email := "b@b", password_hash := { salt := 9, body := "qw" },
    first_name := "B", last_name := "M", is_active := false }

/-! Helper lemmas. -/

/-- The cast chain at line 135 of main.rs: when the usize difference does
not underflow and the true difference fits in `i64`, the wrapped-then-cast
value is the exact signed difference. -/
theorem usize_diff_exact (now r : Nat) (h : now + r < 2 ^ 63) :
    usizeToI64 (usizeSub (now + r) now) = ((now + r : Nat) : Int) - (now : Int) := by
  have hn : now % 2 ^ 64 = now := Nat.mod_eq_of_lt (by omega)
  unfold usizeSub usizeToI64
  rw [hn]
  have h1 : now + r + 2 ^ 64 - now = r + 2 ^ 64 := by omega
  have h2 : (r + 2 ^ 64) % 2 ^ 64 = r := by omega
  rw [h1, h2, if_pos (by omega)]
  push_cast
  omega

/-- `update_password` changes exactly the stored hash of the matching
user: a later `find_by_id` sees the new hash. -/
theorem find_by_id_update_password (users : UserStore) (uid : Nat)
    (h : HashString) (u : User) (hfind : find_by_id users uid = some u) :
    find_by_id (update_password users uid h) uid =
      some { u with password_hash := h } := by
  have hid : u.id = uid := by
    have := List.find?_some hfind
    simpa using this
  unfold find_by_id update_password
  rw [List.find?_map]
  have hp : ((fun x : User => decide (x.id = uid)) ∘
      (fun x : User => if x.id = uid then { x with password_hash := h } else x)) =
      (fun x : User => decide (x.id = uid)) := by
    funext x
    by_cases hx : x.id = uid <;> simp [hx]
  rw [hp]
  unfold find_by_id at hfind
  rw [hfind]
  simp [hid]

/-! ## C5 -/

/-- C5: In `login`, an absent email and a present user whose password does
not verify fail with the same error: `Unauthorized` with the identical
message "Invalid credentials", making the two causes indistinguishable. -/
theorem login_absent_email_and_wrong_password_same_error
    (s : Settings) (users : UserStore) (sess : SessionStore)
    (dto : LoginRequestDto) (now : Nat) (llr : Except String Unit) (u : User)
    (h : find_by_email users dto.email = none ∨
         (find_by_email users dto.email = some u ∧
          verify_password u.password_hash dto.password = false)) :
    (login s users sess dto now llr).1 =
      Except.error (AppError.Unauthorized "Invalid credentials") := by
  rcases h with h | ⟨h, hv⟩
  · simp [login, h]
  · simp [login, h, hv]

/-- Witness for C5 at concrete inputs: a login for an unknown email and a
login for alice with the wrong password both produce the same error. -/
theorem login_absent_email_and_wrong_password_same_error_witness :
    (login exSettings [alice] [] { email := "zz", password := "pw" } 5
        (Except.ok ())).1 =
      Except.error (AppError.Unauthorized "Invalid credentials") ∧
    (login exSettings [alice] [] { email := "a@b", password := "bad" } 5
        (Except.ok ())).1 =
      Except.error (AppError.Unauthorized "Invalid credentials") :=
  ⟨login_absent_email_and_wrong_password_same_error exSettings [alice] []
      { email := "zz", password := "pw" } 5 (Except.ok ()) alice
      (Or.inl (by decide)),
   login_absent_email_and_wrong_password_same_error exSettings [alice] []
      { email := "a@b", password := "bad" } 5 (Except.ok ()) alice
      (Or.inr ⟨by decide, by decide⟩)⟩

/-! ## C8 -/

/-- C8: `reset_password` with a token absent from the Session Store
(never issued, or expired by the store) fails with `BadRequest` and the
message "Invalid or expired reset token.", and leaves the User Store
unchanged (no password hash is written). -/
theorem reset_password_absent_token_bad_request
    (users : UserStore) (sess : SessionStore) (token newPw : String) (salt : Nat)
    (h : get_user_id_from_reset_token sess token = none) :
    reset_password users sess token newPw salt =
      (Except.error (AppError.BadRequest "Invalid or expired reset token."),
       users) := by
  simp [reset_password, h]

/-- Witness for C8 at concrete inputs: an empty Session Store holds no
token, so the reset fails and the users are untouched. -/
theorem reset_password_absent_token_bad_request_witness :
    reset_password [alice] [] "t0" "newpw" 3 =
      (Except.error (AppError.BadRequest "Invalid or expired reset token."),
       [alice]) :=
  reset_password_absent_token_bad_request [alice] [] "t0" "newpw" 3 (by decide)

/-! ## C9 -/

/-- C9: the remaining-lifetime subtraction of line 135 is performed on
usize: whenever `refresh_exp >= now` (and both fit in usize) it does not
underflow and yields the exact non-negative difference; for the concrete
input `refresh_exp = 5, now = 10` it wraps to `2^64 - 5`, which is not the
true difference `-5`. -/
theorem login_ttl_usize_subtraction :
    (∀ a b : Nat, a < 2 ^ 64 → b ≤ a →
      usizeSub a b = a - b ∧ (0 : Int) ≤ ((usizeSub a b : Nat) : Int)) ∧
    usizeSub 5 10 = 2 ^ 64 - 5 ∧
    ((usizeSub 5 10 : Nat) : Int) ≠ (5 : Int) - (10 : Int) := by
  refine ⟨?_, ?_, ?_⟩
  · intro a b ha hb
    constructor
    · unfold usizeSub
      have hbm : b % 2 ^ 64 = b := Nat.mod_eq_of_lt (by omega)
      rw [hbm]
      omega
    · exact Int.natCast_nonneg _
  · unfold usizeSub
    norm_num
  · unfold usizeSub
    norm_num

/-- Witness for C9 at concrete inputs: `10 - 3` computes exactly, while
`5 - 10` wraps. -/
theorem login_ttl_usize_subtraction_witness :
    usizeSub 10 3 = 7 ∧ usizeSub 5 10 = 2 ^ 64 - 5 :=
  ⟨(login_ttl_usize_subtraction.1 10 3 (by norm_num) (by norm_num)).1,
   login_ttl_usize_subtraction.2.1⟩

/-! ## C1 -/

/-- C1 counterexample: at a concrete login for alice in which every earlier
step succeeds, the call with a successful last-login update returns the
full token response, but the same call in which `update_last_login`
reports an error returns `DbError` to the caller instead of the response —
the error is propagated by the `?` at line 143, not merely logged. -/
theorem login_last_login_error_propagates_cex :
    (login exSettings [alice] [] { email := "a@b", password := "pw" } 1000
        (Except.ok ())).1 =
      Except.ok
        { access_token := { secret := "secret", sub := 1, iat := 1000, exp := 1900 },
          refresh_token := { secret := "secret", sub := 1, iat := 1000, exp := 4600 },
          expires_in := 1900,
          user := some { id := "1", email := "a@b", first_name := "A", last_name := "L" } } ∧
    (login exSettings [alice] [] { email := "a@b", password := "pw" } 1000
        (Except.error "db down")).1 =
      Except.error (AppError.DbError "db down") := by
  constructor <;> decide

/-- C1 amended: when the earlier steps of `login` succeed and the
last-login update fails, the operation fails with that `DbError`
propagated to the caller (rather than still returning the response). -/
theorem login_last_login_error_fails_login
    (s : Settings) (users : UserStore) (sess : SessionStore)
    (dto : LoginRequestDto) (now : Nat) (e : String) (u : User)
    (hfind : find_by_email users dto.email = some u)
    (hverify : verify_password u.password_hash dto.password = true) :
    (login s users sess dto now (Except.error e)).1 =
      Except.error (AppError.DbError e) := by
  simp [login, hfind, hverify]

/-- Witness for the amended C1 at concrete inputs. -/
theorem login_last_login_error_fails_login_witness :
    (login exSettings [alice] [] { email := "a@b", password := "pw" } 1000
        (Except.error "db down")).1 =
      Except.error (AppError.DbError "db down") :=
  login_last_login_error_fails_login exSettings [alice] []
    { email := "a@b", password := "pw" } 1000 "db down" alice
    (by decide) (by decide)

/-! ## C2 -/

/-- C2 counterexample: at a concrete successful login at time 1000 with a
configured access TTL of 900 seconds, the response carries
`expires_in = 1900` (the absolute expiry timestamp), which differs from
the configured TTL of 900 seconds. -/
theorem login_expires_in_not_ttl_cex :
    (login exSettings [alice] [] { email := "a@b", password := "pw" } 1000
        (Except.ok ())).1 =
      Except.ok
        { access_token := { secret := "secret", sub := 1, iat := 1000, exp := 1900 },
          refresh_token := { secret := "secret", sub := 1, iat := 1000, exp := 4600 },
          expires_in := 1900,
          user := some { id := "1", email := "a@b", first_name := "A", last_name := "L" } } ∧
    (1900 : Int) ≠ ((exSettings.access_token_ttl_secs : Nat) : Int) := by
  constructor <;> decide

/-- C2 amended: for every successful login (with the expiry in i64 range),
`expires_in` equals the access token's absolute expiry timestamp
`now + access_token_ttl_secs`, not the TTL duration alone. -/
theorem login_expires_in_absolute_expiry
    (s : Settings) (users : UserStore) (sess : SessionStore)
    (dto : LoginRequestDto) (now : Nat) (u : User)
    (hfind : find_by_email users dto.email = some u)
    (hverify : verify_password u.password_hash dto.password = true)
    (hbound : now + s.access_token_ttl_secs < 2 ^ 63) :
    (login s users sess dto now (Except.ok ())).1 =
      Except.ok
        { access_token := (generate_access_token s now u.id).1,
          refresh_token := (generate_refresh_token s now u.id).1,
          expires_in := (now : Int) + (s.access_token_ttl_secs : Int),
          user := some (userProjection u) } := by
  have hexp : (generate_access_token s now u.id).2 = now + s.access_token_ttl_secs := rfl
  have hcast : usizeToI64 (now + s.access_token_ttl_secs) =
      (now : Int) + (s.access_token_ttl_secs : Int) := by
    unfold usizeToI64
    rw [if_pos hbound]
    push_cast
    ring
  simp [login, hfind, hverify, hexp, hcast]

/-- Witness for the amended C2 at concrete inputs. -/
theorem login_expires_in_absolute_expiry_witness :
    (login exSettings [alice] [] { email := "a@b", password := "pw" } 1000
        (Except.ok ())).1 =
      Except.ok
        { access_token := (generate_access_token exSettings 1000 alice.id).1,
          refresh_token := (generate_refresh_token exSettings 1000 alice.id).1,
          expires_in := ((1000 : Nat) : Int) + ((exSettings.access_token_ttl_secs : Nat) : Int),
          user := some (userProjection alice) } :=
  login_expires_in_absolute_expiry exSettings [alice] []
    { email := "a@b", password := "pw" } 1000 alice
    (by decide) (by decide) (by decide)

/-! ## C4 -/

/-- C4: `forgot_password` for an existing email and for an absent email
return the identical response; the absent case leaves the Session Store
unchanged, while the existing case performs exactly the reset-token write
(and in particular does change the store). -/
theorem forgot_password_anti_enumeration
    (users : UserStore) (sess : SessionStore) (e1 e2 : String)
    (rand1 rand2 : Nat) (u : User)
    (h1 : find_by_email users e1 = some u)
    (h2 : find_by_email users e2 = none) :
    (forgot_password users sess e1 rand1).1 = (forgot_password users sess e2 rand2).1 ∧
    (forgot_password users sess e2 rand2).2 = sess ∧
    (forgot_password users sess e1 rand1).2 =
      store_reset_token sess (toString (uuidV4ofRandom rand1)) u.id (30 * 60) ∧
    (forgot_password users sess e1 rand1).2 ≠ sess := by
  refine ⟨?_, ?_, ?_, ?_⟩
  · simp [forgot_password, h1, h2]
  · simp [forgot_password, h2]
  · simp [forgot_password, h1]
  · simp only [forgot_password, h1]
    exact List.cons_ne_self _ _

/-- Witness for C4 at concrete inputs: alice's email versus an unknown
email. -/
theorem forgot_password_anti_enumeration_witness :
    (forgot_password [alice] [] "a@b" 0).1 = (forgot_password [alice] [] "zz" 1).1 ∧
    (forgot_password [alice] [] "zz" 1).2 = ([] : SessionStore) ∧
    (forgot_password [alice] [] "a@b" 0).2 =
      store_reset_token [] (toString (uuidV4ofRandom 0)) alice.id (30 * 60) ∧
    (forgot_password [alice] [] "a@b" 0).2 ≠ ([] : SessionStore) :=
  forgot_password_anti_enumeration [alice] [] "a@b" "zz" 0 1 alice
    (by decide) (by decide)

/-! ## C6 -/

/-- C6: when the token passes cryptographic verification and the expiry
check, `validate_token` still fails `Unauthorized` if the subject user is
absent from the User Store or inactive, and returns `valid = true` with
the user projection exactly when the user is found and active. -/
theorem validate_token_requires_active_user
    (s : Settings) (users : UserStore) (now : Nat) (t : Token)
    (claims : Claims) (u : User)
    (hver : verifyToken s.jwt_secret now t = Except.ok claims) :
    (find_by_id users claims.sub = none →
      validate_token s users now t =
        Except.error (AppError.Unauthorized "User not active or not found")) ∧
    (find_by_id users claims.sub = some u → u.is_active = false →
      validate_token s users now t =
        Except.error (AppError.Unauthorized "User not active or not found")) ∧
    (find_by_id users claims.sub = some u → u.is_active = true →
      validate_token s users now t =
        Except.ok { valid := true, user := some (userProjection u),
                    message := "Token is valid" }) := by
  refine ⟨?_, ?_, ?_⟩
  · intro h
    simp [validate_token, hver, h]
  · intro h ha
    simp [validate_token, hver, h, ha]
  · intro h ha
    simp [validate_token, hver, h, ha]

/-- Witness for C6 at concrete inputs: a signed, unexpired token for a
missing user, one for the inactive user bob, and one for the active user
alice. -/
theorem validate_token_requires_active_user_witness :
    validate_token exSettings [] 5 { secret := "secret", sub := 1, iat := 0, exp := 100 } =
      Except.error (AppError.Unauthorized "User not active or not found") ∧
    validate_token exSettings [bob] 5 { secret := "secret", sub := 2, iat := 0, exp := 100 } =
      Except.error (AppError.Unauthorized "User not active or not found") ∧
    validate_token exSettings [alice] 5 { secret := "secret", sub := 1, iat := 0, exp := 100 } =
      Except.ok { valid := true, user := some (userProjection alice),
                  message := "Token is valid" } :=
  ⟨(validate_token_requires_active_user exSettings [] 5
      { secret := "secret", sub := 1, iat := 0, exp := 100 }
      { sub := 1, iat := 0, exp := 100 } alice (by decide)).1 (by decide),
   (validate_token_requires_active_user exSettings [bob] 5
      { secret := "secret", sub := 2, iat := 0, exp := 100 }
      { sub := 2, iat := 0, exp := 100 } bob (by decide)).2.1 (by decide) (by decide),
   (validate_token_requires_active_user exSettings [alice] 5
      { secret := "secret", sub := 1, iat := 0, exp := 100 }
      { sub := 1, iat := 0, exp := 100 } alice (by decide)).2.2 (by decide) (by decide)⟩

/-! ## C7 -/

/-- C7: every login that reaches token issuance registers the refresh
token in the Session Store keyed by the user id, with TTL exactly the
refresh token's expiry timestamp minus the current time (the write happens
whether or not the later last-login update succeeds). -/
theorem login_refresh_ttl_remaining_lifetime
    (s : Settings) (users : UserStore) (sess : SessionStore)
    (dto : LoginRequestDto) (now : Nat) (llr : Except String Unit) (u : User)
    (hfind : find_by_email users dto.email = some u)
    (hverify : verify_password u.password_hash dto.password = true)
    (hbound : now + s.refresh_token_ttl_secs < 2 ^ 63) :
    (login s users sess dto now llr).2 =
      store_refresh_token sess u.id (generate_refresh_token s now u.id).1
        (((generate_refresh_token s now u.id).2 : Int) - (now : Int)) := by
  have hexp : (generate_refresh_token s now u.id).2 = now + s.refresh_token_ttl_secs := rfl
  have h := usize_diff_exact now s.refresh_token_ttl_secs hbound
  cases llr <;> simp [login, hfind, hverify, hexp, h]

/-- Witness for C7 at concrete inputs. -/
theorem login_refresh_ttl_remaining_lifetime_witness :
    (login exSettings [alice] [] { email := "a@b", password := "pw" } 1000
        (Except.ok ())).2 =
      store_refresh_token [] alice.id (generate_refresh_token exSettings 1000 alice.id).1
        (((generate_refresh_token exSettings 1000 alice.id).2 : Int) - ((1000 : Nat) : Int)) :=
  login_refresh_ttl_remaining_lifetime exSettings [alice] []
    { email := "a@b", password := "pw" } 1000 (Except.ok ()) alice
    (by decide) (by decide) (by decide)

/-! ## C10 -/

/-- C10: `reset_password` performs no User Store lookup before writing:
for a token mapped to some user id, it reports success and overwrites that
user's hash even when the user is inactive. -/
theorem reset_password_ignores_user_state
    (users : UserStore) (sess : SessionStore) (token newPw : String)
    (salt : Nat) (uid : Nat) (u : User)
    (hget : get_user_id_from_reset_token sess token = some uid)
    (hfind : find_by_id users uid = some u)
    (_hinactive : u.is_active = false) :
    (reset_password users sess token newPw salt).1 =
      Except.ok { success := true, message := "Password reset successfully" } ∧
    find_by_id (reset_password users sess token newPw salt).2 uid =
      some { u with password_hash := hash_password salt newPw } := by
  constructor
  · simp [reset_password, hget]
  · simp only [reset_password, hget]
    exact find_by_id_update_password users uid _ u hfind

/-- Witness for C10 at concrete inputs: a reset token mapped to the
inactive user bob resets bob's password hash. -/
theorem reset_password_ignores_user_state_witness :
    (reset_password [bob] [(SessKey.reset "tok", SessVal.uid 2, 1800)] "tok" "npw" 3).1 =
      Except.ok { success := true, message := "Password reset successfully" } ∧
    find_by_id (reset_password [bob] [(SessKey.reset "tok", SessVal.uid 2, 1800)]
        "tok" "npw" 3).2 2 =
      some { bob with password_hash := hash_password 3 "npw" } :=
  reset_password_ignores_user_state [bob]
    [(SessKey.reset "tok", SessVal.uid 2, 1800)] "tok" "npw" 3 2 bob
    (by decide) (by decide) (by decide)

/-! ## C3 -/

/-- C3 counterexample: the space of values `Uuid::new_v4()` can produce —
and hence the space of reset tokens `forgot_password` can generate — has
fewer than `2^128` elements, so the generator cannot have 128 bits of
entropy. -/
theorem reset_token_space_below_128_bits :
    resetTokenSpace.card < 2 ^ 128 := by
  have h1 : resetTokenSpace.card ≤ 2 ^ 122 := by
    unfold resetTokenSpace
    refine le_trans Finset.card_image_le ?_
    simp
  have h2 : (2 : Nat) ^ 122 < 2 ^ 128 := by norm_num
  omega

/-- C3 amended: every reset token value lies in `resetTokenSpace`, whose
size is at most `2^122` — a version-4 UUID fixes 6 of its 128 bits, so the
generator draws from at most 122 bits of randomness, below the claimed
128. -/
theorem reset_token_entropy_122_bits :
    (∀ r : Nat, uuidV4ofRandom r ∈ resetTokenSpace) ∧
    resetTokenSpace.card ≤ 2 ^ 122 ∧ (2 : Nat) ^ 122 < 2 ^ 128 := by
  refine ⟨?_, ?_, by norm_num⟩
  · intro r
    unfold resetTokenSpace
    apply Finset.mem_image.mpr
    refine ⟨r % 2 ^ 122, Finset.mem_range.mpr (Nat.mod_lt _ (by norm_num)), ?_⟩
    unfold uuidV4ofRandom
    simp only []
    omega
  · unfold resetTokenSpace
    refine le_trans Finset.card_image_le ?_
    simp

end AuthCore
